import Mathlib

/-
Verification of the short-key issuance and resolution core of the davet.link
backend (Go, GORM, Fiber).  The definitions below are a shallow embedding of
the source files:

 * models/link.go            : Link model, BeforeCreate / BeforeUpdate hooks,
                               generateSecureRandomStringForLink
 * repositories/link_repository.go : LinkRepository (Create / FindByKey /
                               KeyExists / Update), getDB and the ambient
                               "tx" context convention
 * services/link_service.go  : LinkService.CreateLink / GetLinkByKey /
                               UpdateLinkTarget, AppointmentService
 * services/card_service.go  : CardService.CreateCard / GetCardByKey,
                               FormService.CreateForm / GetFormByKey
 * handlers (LinkHandler.HandleLink, PublicLinkHandler.HandleLink)

The database is modelled as an explicit store of rows; the cryptographic
random source (crypto/rand.Int) and the storage-layer insert verdict are
oracle parameters, so that collision and duplicate-key scenarios can be
stated.  gorm.DB.Transaction semantics (rollback discards the writes made on
the transaction handle, and only those) are modelled explicitly in each
service flow, with connection routing following LinkRepository.getDB: a
repository bound to the base connection stays on the base connection unless
the context carries a "tx" value, which no caller in this repository ever
sets.
-/

namespace DavetLink

/-! ### Key generator (models/link.go, generateSecureRandomStringForLink) -/

/-- The 62-character alphanumeric alphabet `charsetForLink` from models/link.go. -/
def charsetForLink : String :=
  "abcdefghijklmnopqrstuvwxyzABCDEFGHIJKLMNOPQRSTUVWXYZ0123456789"

/-- The alphabet as a list of characters (Go indexes the constant byte-wise). -/
def charsetChars : List Char := charsetForLink.toList

theorem charsetChars_length : charsetChars.length = 62 := rfl

/-- One call to crypto/rand.Int(rand.Reader, 62) for a given character
position: either an entropy failure or an index that rand.Int guarantees to
lie in [0, 62). -/
def RandSrc := Nat → Except Unit (Fin 62)

/-- Errors of generateSecureRandomStringForLink. -/
inductive GenErr where
  | lengthNotPositive
  | randomIndexFailed
  deriving Repr, DecidableEq

/-- The character-generation loop: positions i, i+1, ... for `n` characters,
aborting at the first failing call of the random source (the Go loop returns
the wrapped error immediately). -/
def genChars (src : RandSrc) (i : Nat) : Nat → Except GenErr (List Char)
  | 0 => .ok []
  | n + 1 =>
    match src i with
    | .error _ => .error .randomIndexFailed
    | .ok idx =>
      match genChars src (i + 1) n with
      | .error e => .error e
      | .ok rest => .ok (charsetChars.get (Fin.cast charsetChars_length.symm idx) :: rest)

/-- generateSecureRandomStringForLink(length): rejects non-positive lengths,
then draws one alphabet character per position from the secure source,
failing (never degrading) if the source fails. -/
def generateSecureRandomStringForLink (length : Int) (src : RandSrc) : Except GenErr String :=
  if length ≤ 0 then .error .lengthNotPositive
  else
    match genChars src 0 length.toNat with
    | .error e => .error e
    | .ok cs => .ok (String.mk cs)

/-! ### Store rows -/

/-- A row of the links table (models.Link; audit fields are reduced to the
soft-delete marker, the only one the queried paths read). -/
structure LinkRow where
  id : Nat
  key : String
  typeId : Nat
  targetId : Nat
  creatorUserId : Nat
  deleted : Bool
  deriving Repr, DecidableEq

/-- A row of the types lookup table (models.Type). -/
structure TypeRow where
  id : Nat
  name : String
  deriving Repr, DecidableEq

/-- A row of the appointments table together with the one AppointmentDetail
field the public read path consults (Detail.ExpiresAt, as a UTC instant). -/
structure AppointmentRow where
  id : Nat
  linkId : Nat
  providerUserId : Nat
  isEnabled : Bool
  expiresAt : Option Nat
  deleted : Bool
  deriving Repr, DecidableEq

/-- A row of the cards table (models.Card has no expiry field). -/
structure CardRow where
  id : Nat
  linkId : Nat
  creatorUserId : Nat
  isEnabled : Bool
  deleted : Bool
  deriving Repr, DecidableEq

/-- A row of the forms table with FormDetail.ClosesAt. -/
structure FormRow where
  id : Nat
  linkId : Nat
  creatorUserId : Nat
  isEnabled : Bool
  closesAt : Option Nat
  deleted : Bool
  deriving Repr, DecidableEq

/-- The relational store: one field per table, plus the id sequences. -/
structure Store where
  types : List TypeRow
  links : List LinkRow
  appointments : List AppointmentRow
  cards : List CardRow
  forms : List FormRow
  nextLinkId : Nat
  nextResId : Nat
  deriving Repr, DecidableEq

/-- SELECT count(*) FROM links WHERE key = k (GORM's default scope hides
soft-deleted rows). -/
def keyCount (st : Store) (k : String) : Nat :=
  (st.links.filter (fun r => r.key = k && !r.deleted)).length

/-- SELECT * FROM links WHERE key = k LIMIT 1, soft-deleted rows excluded. -/
def findLinkByKey (st : Store) (k : String) : Option LinkRow :=
  st.links.find? (fun r => r.key = k && !r.deleted)

/-- SELECT * FROM links WHERE id = i LIMIT 1, soft-deleted rows excluded. -/
def findLinkById (st : Store) (i : Nat) : Option LinkRow :=
  st.links.find? (fun r => r.id = i && !r.deleted)

/-- Preload("Type"): the Type row joined through Link.TypeID; when the foreign
key matches nothing the preloaded struct stays zero-valued (Name = ""). -/
def typeNameOf (st : Store) (typeId : Nat) : String :=
  match st.types.find? (fun t => t.id = typeId) with
  | some t => t.name
  | none => ""

/-! ### Link.BeforeCreate (models/link.go) -/

/-- Errors of the BeforeCreate hook, one per return site. -/
inductive HookErr where
  | secureKeyGenFailed
  | keyCheckFailed
  | maxAttemptsExceeded
  deriving Repr, DecidableEq

/-- maxAttempts := 10 in Link.BeforeCreate. -/
def maxAttempts : Nat := 10

/-- The generate / count / assign loop of BeforeCreate.  `sources i` is the
entropy feeding attempt i's generateSecureRandomStringForLink(20);
`chk k` is `tx.Model(&Link{}).Where("key = ?", k).Count`, an Except because
the count query itself can fail.  `i` is the attempt index, the second
argument the remaining fuel (`maxAttempts - i`). -/
def bcLoop (sources : Nat → RandSrc) (chk : String → Except Unit Nat)
    (l : LinkRow) (i : Nat) : Nat → Except HookErr LinkRow
  | 0 => .error .maxAttemptsExceeded
  | fuel + 1 =>
    match generateSecureRandomStringForLink 20 (sources i) with
    | .error _ => .error .secureKeyGenFailed
    | .ok k =>
      match chk k with
      | .error _ => .error .keyCheckFailed
      | .ok count =>
        if count = 0 then .ok { l with key := k }
        else bcLoop sources chk l (i + 1) fuel

/-- Link.BeforeCreate: a manually assigned (non-empty) Key is left untouched;
otherwise up to maxAttempts keys are generated and counted in the store. -/
def beforeCreate (sources : Nat → RandSrc) (chk : String → Except Unit Nat)
    (l : LinkRow) : Except HookErr LinkRow :=
  if l.key ≠ "" then .ok l
  else bcLoop sources chk l 0 maxAttempts

/-! ### Link.BeforeUpdate and LinkRepository.Update -/

/-- The update map handed to LinkRepository.Update; only the two columns ever
mentioned by this repository (target_id from the services, key to state the
immutability property). -/
structure LinkUpdateData where
  targetId : Option Nat
  key : Option String
  deriving Repr, DecidableEq

/-- len(data) == 0 in LinkRepository.Update. -/
def LinkUpdateData.isEmpty (d : LinkUpdateData) : Bool :=
  d.targetId.isNone && d.key.isNone

/-- gorm Statement.Changed("Key") for a map destination: the map's value for
the field is compared against the statement model's current field value
(`!utils.AssertEqual(fv, fieldValue)`); a field absent from the map is not
changed.  In `db.Model(&models.Link{}).Where(...).Updates(data)` the
statement model is the zero-valued Link, so `modelKey` is "" on that path. -/
def changedKey (modelKey : String) (d : LinkUpdateData) : Bool :=
  match d.key with
  | some k => k != modelKey
  | none => false

/-- Link.BeforeUpdate: rejects any statement in which the Key field changed. -/
def beforeUpdate (modelKey : String) (d : LinkUpdateData) : Except Unit Unit :=
  if changedKey modelKey d then .error () else .ok ()

/-! ### LinkRepository (part of the unnamed repositories file) -/

/-- Errors crossing the repository and service layers; db-level sentinels
first (gorm.ErrRecordNotFound, gorm.ErrDuplicatedKey, other database errors,
the repositories' own argument errors and the key-immutability error), then
the service sentinels of link_service.go / card_service.go. -/
inductive Err where
  | recordNotFound
  | duplicateKey
  | dbOther
  | invalidArg
  | keyImmutable
  | hook (e : HookErr)
  | linkNotFound
  | linkCreationFailed
  | linkKeyGenerationFailed
  | linkUpdateFailed
  | linkInvalidInput
  | appNotFound
  | appInvalidInput
  | appCreationFailed
  | appGenericTypeError
  | appGenericLinkError
  | cardNotFound
  | crdInvalidInput
  | crdTypeNotFound
  | crdLinkCreationFailed
  | cardCreationFailed
  | crdLinkUpdateFailed
  | formNotFound
  | frmInvalidInput
  | frmTypeNotFound
  | frmLinkCreationFailed
  | formCreationFailed
  | frmLinkUpdateFailed
  deriving Repr, DecidableEq

/-- The storage layer's verdict on the INSERT issued by LinkRepository.Create
after the hook has succeeded.  In a sequential execution it succeeds whenever
the pre-check saw count = 0; a concurrently committed row makes the unique
index on key reject it (gorm.ErrDuplicatedKey / "duplicate key value violates
unique constraint"). -/
inductive InsertOutcome where
  | success
  | duplicateKey
  | dbError
  deriving Repr, DecidableEq

/-- LinkRepository.Create: runs Link.BeforeCreate with the connection's view
of the store, then performs the INSERT; on success the row receives the next
id from the sequence. -/
def linkRepoCreate (sources : Nat → RandSrc) (insertOutcome : InsertOutcome)
    (st : Store) (l : LinkRow) : Store × Except Err LinkRow :=
  match beforeCreate sources (fun k => .ok (keyCount st k)) l with
  | .error e => (st, .error (.hook e))
  | .ok l2 =>
    match insertOutcome with
    | .success =>
      let row := { l2 with id := st.nextLinkId }
      ({ st with links := st.links ++ [row], nextLinkId := st.nextLinkId + 1 }, .ok row)
    | .duplicateKey => (st, .error .duplicateKey)
    | .dbError => (st, .error .dbOther)

/-- Writes the update map onto a row (SET target_id = ..., key = ...). -/
def applyUpdate (d : LinkUpdateData) (r : LinkRow) : LinkRow :=
  { r with targetId := d.targetId.getD r.targetId, key := d.key.getD r.key }

/-- LinkRepository.Update: guards on id and an empty map, runs BeforeUpdate
against the zero-valued statement model, updates every live row matching the
id, and reproduces the RowsAffected == 0 re-check of the source. -/
def linkRepoUpdate (st : Store) (id : Nat) (d : LinkUpdateData)
    (_updatedByUserId : Nat) : Store × Except Err Unit :=
  if id = 0 then (st, .error .invalidArg)
  else if d.isEmpty then (st, .error .invalidArg)
  else
    match beforeUpdate "" d with
    | .error _ => (st, .error .keyImmutable)
    | .ok _ =>
      let matched := st.links.filter (fun r => r.id = id && !r.deleted)
      if matched.length = 0 then
        if (st.links.filter (fun r => r.id = id && !r.deleted)).length = 0 then
          (st, .error .recordNotFound)
        else (st, .ok ())
      else
        ({ st with links :=
            st.links.map (fun r => if r.id = id && !r.deleted then applyUpdate d r else r) },
         .ok ())

/-- LinkRepository.FindByKey: rejects the empty key, then looks the key up
with Type preloaded (the type name is resolved by the callers through
typeNameOf). -/
def linkRepoFindByKey (st : Store) (k : String) : Except Err LinkRow :=
  if k = "" then .error .invalidArg
  else
    match findLinkByKey st k with
    | none => .error .recordNotFound
    | some l => .ok l

/-! ### LinkService (services/link_service.go) -/

/-- LinkService.CreateLink: validates the ids, builds a Link with empty Key
and zero TargetID, and delegates to LinkRepository.Create; a duplicate-key
failure of the insert is mapped to ErrLinkKeyGenerationFailed, every other
repository failure to ErrLinkCreationFailedServ.  There is no retry around
the repository call. -/
def createLink (sources : Nat → RandSrc) (insertOutcome : InsertOutcome)
    (st : Store) (creatorUserId typeId : Nat) : Store × Except Err LinkRow :=
  if typeId = 0 ∨ creatorUserId = 0 then (st, .error .linkInvalidInput)
  else
    let l : LinkRow :=
      { id := 0, key := "", typeId := typeId, targetId := 0,
        creatorUserId := creatorUserId, deleted := false }
    match linkRepoCreate sources insertOutcome st l with
    | (st2, .ok row) => (st2, .ok row)
    | (st2, .error e) =>
      (st2, .error (if e = .duplicateKey then .linkKeyGenerationFailed else .linkCreationFailed))

/-- LinkService.GetLinkByKey: maps gorm.ErrRecordNotFound to ErrLinkNotFound
and passes every other repository error through. -/
def getLinkByKeySvc (st : Store) (k : String) : Except Err LinkRow :=
  match linkRepoFindByKey st k with
  | .error e => .error (if e = .recordNotFound then .linkNotFound else e)
  | .ok l => .ok l

/-- LinkService.UpdateLinkTarget: validates the three ids, then updates the
single column target_id through LinkRepository.Update. -/
def updateLinkTarget (st : Store) (updatingUserId linkId targetId : Nat) :
    Store × Except Err Unit :=
  if linkId = 0 ∨ targetId = 0 ∨ updatingUserId = 0 then (st, .error .linkInvalidInput)
  else
    match linkRepoUpdate st linkId { targetId := some targetId, key := none } updatingUserId with
    | (st2, .ok _) => (st2, .ok ())
    | (st2, .error e) =>
      (st2, .error (if e = .recordNotFound then .linkNotFound else .linkUpdateFailed))

/-! ### Resource repositories (FindByID flavours used by the public paths) -/

/-- AppointmentRepository.FindByID: guards id == 0, maps a missing row to the
repositories' ErrNotFound sentinel. -/
def appointmentRepoFindById (st : Store) (i : Nat) : Except Err AppointmentRow :=
  if i = 0 then .error .invalidArg
  else
    match st.appointments.find? (fun a => a.id = i && !a.deleted) with
    | none => .error .recordNotFound
    | some a => .ok a

/-- CardRepository.GetCardByID: `First(&result, id)` without a zero guard;
a missing row becomes ErrNotFound. -/
def cardRepoGetById (st : Store) (i : Nat) : Except Err CardRow :=
  match st.cards.find? (fun c => c.id = i && !c.deleted) with
  | none => .error .recordNotFound
  | some c => .ok c

/-- FormRepository.FindByID: guards id == 0, maps a missing row to
ErrNotFound. -/
def formRepoFindById (st : Store) (i : Nat) : Except Err FormRow :=
  if i = 0 then .error .invalidArg
  else
    match st.forms.find? (fun f => f.id = i && !f.deleted) with
    | none => .error .recordNotFound
    | some f => .ok f

/-! ### Public get-by-key operations -/

/-- AppointmentService.GetAppointmentByKey: empty key, link lookup, type-name
check, target lookup, IsEnabled check and Detail.ExpiresAt check
(`time.Now().UTC().After(*ExpiresAt)`), each failure surfacing as
ErrAppointmentNotFound except non-not-found storage errors, which pass
through. -/
def getAppointmentByKey (st : Store) (now : Nat) (key : String) :
    Except Err AppointmentRow :=
  if key = "" then .error .appNotFound
  else
    match getLinkByKeySvc st key with
    | .error e => .error (if e = .linkNotFound then .appNotFound else e)
    | .ok link =>
      if typeNameOf st link.typeId ≠ "APPOINTMENT" then .error .appNotFound
      else
        match appointmentRepoFindById st link.targetId with
        | .error e => .error (if e = .recordNotFound then .appNotFound else e)
        | .ok a =>
          if !a.isEnabled then .error .appNotFound
          else
            match a.expiresAt with
            | some e => if now > e then .error .appNotFound else .ok a
            | none => .ok a

/-- CardService.GetCardByKey: goes through linkRepo.FindByKey directly, then
the CARD type-name check, CardRepository.GetCardByID and the IsEnabled check
(cards carry no expiry field). -/
def getCardByKey (st : Store) (key : String) : Except Err CardRow :=
  if key = "" then .error .cardNotFound
  else
    match linkRepoFindByKey st key with
    | .error e => .error (if e = .recordNotFound then .cardNotFound else e)
    | .ok link =>
      if typeNameOf st link.typeId ≠ "CARD" then .error .cardNotFound
      else
        match cardRepoGetById st link.targetId with
        | .error e => .error (if e = .recordNotFound then .cardNotFound else e)
        | .ok c =>
          if !c.isEnabled then .error .cardNotFound
          else .ok c

/-- FormService.GetFormByKey: any link-service failure becomes
ErrFormNotFound, the repository error passes through unchanged, then the
IsEnabled and Detail.ClosesAt checks. -/
def getFormByKey (st : Store) (now : Nat) (key : String) : Except Err FormRow :=
  if key = "" then .error .formNotFound
  else
    match getLinkByKeySvc st key with
    | .error _ => .error .formNotFound
    | .ok link =>
      if typeNameOf st link.typeId ≠ "FORM" then .error .formNotFound
      else
        match formRepoFindById st link.targetId with
        | .error e => .error e
        | .ok f =>
          if !f.isEnabled then .error .formNotFound
          else
            match f.closesAt with
            | some t => if now > t then .error .formNotFound else .ok f
            | none => .ok f

/-! ### Resource creation flows

gorm's `db.Transaction(body)` commits the writes made through the `tx` handle
when `body` returns nil and discards them when it returns an error.  Crucially,
only the writes made through `tx` take part: `LinkRepository.getDB(ctx)` uses
`tx` only when the context carries a "tx" value, and no caller in this
repository ever stores one — the contexts built by `contextWithUserID` carry
only the user id.  Hence in CreateAppointment and CreateForm the link insert
(`s.linkService.CreateLink`) and, for CreateAppointment, the target backfill
(`s.linkService.UpdateLinkTarget`) run on the base connection and commit
immediately, while only the resource insert runs on `tx` (the repositories
built by `NewAppointmentRepositoryTx` / `NewFormRepositoryTx`).  In
CreateCard every store operation goes through repositories bound to `tx`.
Each flow below spells out this routing: base-connection writes are applied
to the running store unconditionally; `tx` writes are kept pending and are
dropped on the error paths (rollback). -/

/-- The AppointmentDetail fields consulted by ValidateAppointmentDetail plus
ExpiresAt. -/
structure AppointmentDetail where
  name : String
  durationMinutes : Int
  bookingLeadTime : Int
  bookingHorizonDays : Int
  bufferTimeBefore : Int
  bufferTimeAfter : Int
  expiresAt : Option Nat
  deriving Repr, DecidableEq

/-- ValidateAppointmentDetail from services/link_service.go. -/
def validateAppointmentDetail (d : AppointmentDetail) : Except Err Unit :=
  if d.name = "" then .error .appInvalidInput
  else if d.durationMinutes ≤ 0 then .error .appInvalidInput
  else if d.bookingLeadTime < 0 then .error .appInvalidInput
  else if d.bookingHorizonDays ≤ 0 then .error .appInvalidInput
  else if d.bufferTimeBefore < 0 ∨ d.bufferTimeAfter < 0 then .error .appInvalidInput
  else .ok ()

/-- AppointmentService.CreateAppointment.  `appInsertFails` injects a storage
failure of the resource insert (the only write of this flow that actually
runs on the transaction handle).  Note the link insert and the target
backfill are executed through the link service on the base connection, and
therefore survive the rollback taken when the resource insert fails. -/
def createAppointment (sources : Nat → RandSrc) (appInsertFails : Bool)
    (st : Store) (providerUserId : Nat) (detail : AppointmentDetail) :
    Store × Except Err AppointmentRow :=
  match validateAppointmentDetail detail with
  | .error e => (st, .error e)
  | .ok _ =>
    if providerUserId = 0 then (st, .error .appInvalidInput)
    else
      match st.types.find? (fun t => t.name = "APPOINTMENT") with
      | none => (st, .error .appGenericTypeError)
      | some appType =>
        match createLink sources .success st providerUserId appType.id with
        | (st1, .error _) => (st1, .error .appGenericLinkError)
        | (st1, .ok link) =>
          if appInsertFails then
            (st1, .error .appCreationFailed)
          else
            let app : AppointmentRow :=
              { id := st1.nextResId, linkId := link.id,
                providerUserId := providerUserId, isEnabled := true,
                expiresAt := detail.expiresAt, deleted := false }
            match updateLinkTarget st1 providerUserId link.id app.id with
            | (st2, .error _) => (st2, .error .appGenericLinkError)
            | (st2, .ok _) =>
              ({ st2 with appointments := st2.appointments ++ [app],
                          nextResId := st2.nextResId + 1 },
               .ok app)

/-- The FormDetail fields consulted by ValidateFormDetail plus ClosesAt. -/
structure FormDetail where
  title : String
  submissionLimit : Option Int
  limitPerUser : Option Int
  closesAt : Option Nat
  deriving Repr, DecidableEq

/-- ValidateFormDetail from services/card_service.go (FormService section). -/
def validateFormDetail (d : FormDetail) : Except Err Unit :=
  if d.title = "" then .error .frmInvalidInput
  else if (match d.submissionLimit with | some n => decide (n < 0) | none => false) then
    .error .frmInvalidInput
  else if (match d.limitPerUser with | some n => decide (n < 0) | none => false) then
    .error .frmInvalidInput
  else .ok ()

/-- FormService.CreateForm: same shape as CreateAppointment, except that the
target backfill goes through `linkRepoTx` (bound to `tx`), so it is applied
to the pending transaction view and is discarded with the rollback, while
the link insert itself still runs on the base connection. -/
def createForm (sources : Nat → RandSrc) (formInsertFails : Bool)
    (st : Store) (creatorUserId : Nat) (detail : FormDetail) :
    Store × Except Err FormRow :=
  match validateFormDetail detail with
  | .error e => (st, .error e)
  | .ok _ =>
    if creatorUserId = 0 then (st, .error .frmInvalidInput)
    else
      match st.types.find? (fun t => t.name = "FORM") with
      | none => (st, .error .frmTypeNotFound)
      | some formType =>
        match createLink sources .success st creatorUserId formType.id with
        | (st1, .error _) => (st1, .error .frmLinkCreationFailed)
        | (st1, .ok link) =>
          if formInsertFails then
            (st1, .error .formCreationFailed)
          else
            let form : FormRow :=
              { id := st1.nextResId, linkId := link.id,
                creatorUserId := creatorUserId, isEnabled := true,
                closesAt := detail.closesAt, deleted := false }
            let stTx := { st1 with forms := st1.forms ++ [form],
                                   nextResId := st1.nextResId + 1 }
            match linkRepoUpdate stTx link.id { targetId := some form.id, key := none } creatorUserId with
            | (_, .error _) => (st1, .error .frmLinkUpdateFailed)
            | (stTx2, .ok _) => (stTx2, .ok form)

/-- The CardDetail fields consulted by ValidateCardDetail. -/
structure CardDetail where
  firstName : String
  lastName : String
  deriving Repr, DecidableEq

/-- ValidateCardDetail from services/card_service.go. -/
def validateCardDetail (d : CardDetail) : Except Err Unit :=
  if d.firstName = "" ∨ d.lastName = "" then .error .crdInvalidInput
  else .ok ()

/-- The in-service key loop of CardService.CreateCard: up to 5 attempts of
utils.GenerateSecureRandomString(20) (an oracle `gen`, since that utility
lives outside this repository) each counted against the transaction's view
of the links table; a generation failure aborts, and exhausting the bound
leaves linkKey == "" which the caller turns into the same failure. -/
def cardKeyLoop (gen : Nat → Except Unit String) (st : Store) (i : Nat) :
    Nat → Except Unit String
  | 0 => .error ()
  | fuel + 1 =>
    match gen i with
    | .error _ => .error ()
    | .ok k =>
      if keyCount st k = 0 then .ok k
      else cardKeyLoop gen st (i + 1) fuel

/-- maxKeyAttempts := 5 in CardService.CreateCard. -/
def cardMaxKeyAttempts : Nat := 5

/-- CardService.CreateCard: every step of the transaction body — key loop
count, link insert (with the caller-supplied key; BeforeCreate passes it
through), card insert and target backfill — runs on repositories bound to
`tx`, so any failure rolls the whole body back to the initial store. -/
def createCard (sources : Nat → RandSrc) (gen : Nat → Except Unit String)
    (cardInsertFails : Bool) (st : Store) (creatorUserId : Nat)
    (detail : CardDetail) : Store × Except Err CardRow :=
  match validateCardDetail detail with
  | .error e => (st, .error e)
  | .ok _ =>
    if creatorUserId = 0 then (st, .error .crdInvalidInput)
    else
      match st.types.find? (fun t => t.name = "CARD") with
      | none => (st, .error .crdTypeNotFound)
      | some cardType =>
        match cardKeyLoop gen st 0 cardMaxKeyAttempts with
        | .error _ => (st, .error .crdLinkCreationFailed)
        | .ok linkKey =>
          let l : LinkRow :=
            { id := 0, key := linkKey, typeId := cardType.id, targetId := 0,
              creatorUserId := creatorUserId, deleted := false }
          match linkRepoCreate sources .success st l with
          | (_, .error _) => (st, .error .crdLinkCreationFailed)
          | (stTx, .ok link) =>
            if cardInsertFails then
              (st, .error .cardCreationFailed)
            else
              let card : CardRow :=
                { id := stTx.nextResId, linkId := link.id,
                  creatorUserId := creatorUserId, isEnabled := true,
                  deleted := false }
              let stTx2 := { stTx with cards := stTx.cards ++ [card],
                                       nextResId := stTx.nextResId + 1 }
              match linkRepoUpdate stTx2 link.id { targetId := some card.id, key := none } creatorUserId with
              | (_, .error _) => (st, .error .crdLinkUpdateFailed)
              | (stTx3, .ok _) => (stTx3, .ok card)

/-! ### Public dispatch handlers (LinkHandler.HandleLink and
PublicLinkHandler.HandleLink) -/

/-- Outcome of a resource service's public get-by-key call as the handlers
distinguish them: success, the service's own not-found sentinel, or any
other error. -/
inductive GetterOutcome where
  | found
  | notFoundErr
  | otherErr
  deriving Repr, DecidableEq

/-- The four per-type public loaders the dispatcher switches into. -/
structure Getters where
  invitation : String → GetterOutcome
  appointment : String → GetterOutcome
  form : String → GetterOutcome
  card : String → GetterOutcome

/-- The handler's possible responses; the four render calls are kept
distinct so the dispatch target is visible. -/
inductive Response where
  | notFound
  | serverError
  | invitationView
  | appointmentView
  | formView
  | cardView
  deriving Repr, DecidableEq

/-- LinkHandler.HandleLink: the length-20 gate, then
linkService.GetLinkByKey (modelled by the `resolve` oracle returning the
link together with its preloaded type name), then the switch on the type
name with an explicit default branch.  Being a total Lean function, it can
never panic. -/
def handleLink (resolve : String → Except Err (LinkRow × String)) (g : Getters)
    (key : String) : Response :=
  if key.length ≠ 20 then .notFound
  else
    match resolve key with
    | .error .linkNotFound => .notFound
    | .error _ => .serverError
    | .ok (_, tname) =>
      if tname = "INVITATION" then
        match g.invitation key with
        | .found => .invitationView
        | .notFoundErr => .notFound
        | .otherErr => .serverError
      else if tname = "APPOINTMENT" then
        match g.appointment key with
        | .found => .appointmentView
        | .notFoundErr => .notFound
        | .otherErr => .serverError
      else if tname = "FORM" then
        match g.form key with
        | .found => .formView
        | .notFoundErr => .notFound
        | .otherErr => .serverError
      else if tname = "CARD" then
        match g.card key with
        | .found => .cardView
        | .notFoundErr => .notFound
        | .otherErr => .serverError
      else .notFound

/-- PublicLinkHandler.HandleLink: same gate and switch; in this variant the
appointment/form/card branches collapse every service failure to a 404. -/
def publicHandleLink (resolve : String → Except Err (LinkRow × String))
    (g : Getters) (key : String) : Response :=
  if key.length ≠ 20 then .notFound
  else
    match resolve key with
    | .error .linkNotFound => .notFound
    | .error _ => .serverError
    | .ok (_, tname) =>
      if tname = "INVITATION" then
        match g.invitation key with
        | .found => .invitationView
        | .notFoundErr => .notFound
        | .otherErr => .serverError
      else if tname = "APPOINTMENT" then
        match g.appointment key with
        | .found => .appointmentView
        | _ => .notFound
      else if tname = "FORM" then
        match g.form key with
        | .found => .formView
        | _ => .notFound
      else if tname = "CARD" then
        match g.card key with
        | .found => .cardView
        | _ => .notFound
      else .notFound

/-! ### Concrete oracles used by the witnesses -/

/-- An entropy source that always yields index 0 (the character 'a'). -/
def srcZero : RandSrc := fun _ => .ok ⟨0, by decide⟩

/-- Per-attempt entropy sources, all equal to srcZero. -/
def sourcesZero : Nat → RandSrc := fun _ => srcZero

/-- An entropy source that always fails. -/
def srcFail : RandSrc := fun _ => .error ()

/-! ### Lemmas about the character-generation loop -/

theorem genChars_ok_length (src : RandSrc) :
    ∀ n i cs, genChars src i n = .ok cs → cs.length = n := by
  intro n
  induction n with
  | zero =>
    intro i cs h
    simp only [genChars] at h
    cases h
    rfl
  | succ n ih =>
    intro i cs h
    simp only [genChars] at h
    cases hs : src i with
    | error e => rw [hs] at h; cases h
    | ok idx =>
      rw [hs] at h
      cases hg : genChars src (i + 1) n with
      | error e => rw [hg] at h; cases h
      | ok rest =>
        rw [hg] at h
        cases h
        simp [ih (i + 1) rest hg]

theorem genChars_ok_mem (src : RandSrc) :
    ∀ n i cs, genChars src i n = .ok cs → ∀ c ∈ cs, c ∈ charsetChars := by
  intro n
  induction n with
  | zero =>
    intro i cs h
    simp only [genChars] at h
    cases h
    intro c hc
    cases hc
  | succ n ih =>
    intro i cs h
    simp only [genChars] at h
    cases hs : src i with
    | error e => rw [hs] at h; cases h
    | ok idx =>
      rw [hs] at h
      cases hg : genChars src (i + 1) n with
      | error e => rw [hg] at h; cases h
      | ok rest =>
        rw [hg] at h
        cases h
        intro c hc
        cases hc with
        | head => exact List.get_mem charsetChars _ _
        | tail _ htail => exact ih (i + 1) rest hg c htail

theorem genChars_err_of_fail (src : RandSrc) :
    ∀ n i j, i ≤ j → j < i + n → src j = .error () →
      genChars src i n = .error .randomIndexFailed := by
  intro n
  induction n with
  | zero =>
    intro i j hij hlt _
    omega
  | succ n ih =>
    intro i j hij hlt hfail
    simp only [genChars]
    rcases Nat.eq_or_lt_of_le hij with heq | hgt
    · subst heq
      rw [hfail]
    · have hrec := ih (i + 1) j hgt (by omega) hfail
      cases hs : src i with
      | error e => rfl
      | ok idx => rw [hrec]

/-- C4: for every positive length, a successful run of
generateSecureRandomStringForLink returns a string of exactly that many
characters, each drawn from the 62-symbol alphanumeric alphabet; and
whenever the secure random source fails at some position, the function
returns an error rather than a degraded key. -/
theorem generator_length_alphabet_and_failure (length : Int) (src : RandSrc)
    (hpos : 0 < length) :
    (∀ s, generateSecureRandomStringForLink length src = .ok s →
        s.length = length.toNat ∧ ∀ c ∈ s.data, c ∈ charsetChars)
    ∧ ((∃ i, i < length.toNat ∧ src i = .error ()) →
        generateSecureRandomStringForLink length src = .error .randomIndexFailed) := by
  have hneg : ¬ length ≤ 0 := by omega
  constructor
  · intro s h
    simp only [generateSecureRandomStringForLink, if_neg hneg] at h
    cases hg : genChars src 0 length.toNat with
    | error e => rw [hg] at h; cases h
    | ok cs =>
      rw [hg] at h
      cases h
      exact ⟨genChars_ok_length src _ 0 cs hg, genChars_ok_mem src _ 0 cs hg⟩
  · rintro ⟨i, hi, hfail⟩
    simp only [generateSecureRandomStringForLink, if_neg hneg]
    rw [genChars_err_of_fail src length.toNat 0 i (Nat.zero_le i) (by omega) hfail]

/-- Witness for C4 at length 3: the all-zero source yields "aaa" and the
theorem's conclusions hold for it. -/
theorem generator_length_alphabet_and_failure_witness :
    (0 : Int) < 3
    ∧ generateSecureRandomStringForLink 3 srcZero = .ok "aaa"
    ∧ ((∀ s, generateSecureRandomStringForLink 3 srcZero = .ok s →
          s.length = (3 : Int).toNat ∧ ∀ c ∈ s.data, c ∈ charsetChars)
       ∧ ((∃ i, i < (3 : Int).toNat ∧ srcZero i = .error ()) →
          generateSecureRandomStringForLink 3 srcZero = .error .randomIndexFailed)) :=
  ⟨by decide, rfl, generator_length_alphabet_and_failure 3 srcZero (by decide)⟩

/-- A small store shared by several witnesses: the seeded type rows and
empty tables. -/
def stW : Store :=
  { types := [⟨1, "APPOINTMENT"⟩, ⟨2, "FORM"⟩, ⟨3, "CARD"⟩, ⟨4, "INVITATION"⟩],
    links := [], appointments := [], cards := [], forms := [],
    nextLinkId := 1, nextResId := 1 }

/-- A resolver oracle that never finds a link. -/
def resolveNone : String → Except Err (LinkRow × String) := fun _ => .error .linkNotFound

/-- Getter oracles that always report not-found. -/
def gettersNone : Getters :=
  { invitation := fun _ => .notFoundErr, appointment := fun _ => .notFoundErr,
    form := fun _ => .notFoundErr, card := fun _ => .notFoundErr }

/-- A link row used by the dispatch witnesses. -/
def linkW : LinkRow :=
  { id := 1, key := "AAAAAAAAAAAAAAAAAAAA", typeId := 9, targetId := 0,
    creatorUserId := 7, deleted := false }

/-- A resolver oracle that resolves every key to linkW with an unsupported
type name. -/
def resolveUnknownType : String → Except Err (LinkRow × String) :=
  fun _ => .ok (linkW, "BANANA")

/-- C10: CreateLink rejects a zero typeID or creatorUserID with
ErrLinkInvalidInput, and UpdateLinkTarget rejects a zero linkID, targetID or
updatingUserID likewise; in both cases the store is returned untouched and
the outcome is the same for every store and every oracle, i.e. no store
access happens — in particular target_id can never be set to the
placeholder 0 through the service. -/
theorem zero_id_validation (sources : Nat → RandSrc) (insertOutcome : InsertOutcome)
    (st : Store) (creatorUserId typeId updatingUserId linkId targetId : Nat)
    (h1 : typeId = 0 ∨ creatorUserId = 0)
    (h2 : linkId = 0 ∨ targetId = 0 ∨ updatingUserId = 0) :
    createLink sources insertOutcome st creatorUserId typeId = (st, .error .linkInvalidInput)
    ∧ updateLinkTarget st updatingUserId linkId targetId = (st, .error .linkInvalidInput) := by
  constructor
  · unfold createLink
    rw [if_pos h1]
  · unfold updateLinkTarget
    rw [if_pos h2]

/-- Witness for C10 at creatorUserID = 0 (create) and linkID = 0 (update). -/
theorem zero_id_validation_witness :
    createLink sourcesZero .success stW 0 1 = (stW, .error .linkInvalidInput)
    ∧ updateLinkTarget stW 7 0 42 = (stW, .error .linkInvalidInput) :=
  zero_id_validation sourcesZero .success stW 0 1 7 0 42 (Or.inr rfl) (Or.inl rfl)

/-- C7: a public request whose key segment does not have exactly the
configured length 20 is answered with NotFound by both dispatchers before
any store access: the response is the same for every resolver and getter
oracle, so no link lookup can have been consulted. -/
theorem short_key_rejected_before_store_access
    (resolve resolve2 : String → Except Err (LinkRow × String))
    (g g2 : Getters) (key : String) (h : key.length ≠ 20) :
    handleLink resolve g key = .notFound
    ∧ publicHandleLink resolve2 g2 key = .notFound := by
  constructor
  · unfold handleLink
    rw [if_pos h]
  · unfold publicHandleLink
    rw [if_pos h]

/-- Witness for C7 at the key "short". -/
theorem short_key_rejected_before_store_access_witness :
    handleLink resolveNone gettersNone "short" = .notFound
    ∧ publicHandleLink resolveUnknownType gettersNone "short" = .notFound :=
  short_key_rejected_before_store_access resolveNone resolveUnknownType
    gettersNone gettersNone "short" (by decide)

/-- C8: when a well-formed key resolves to a Link whose type name is none of
INVITATION, APPOINTMENT, FORM, CARD, both dispatchers answer NotFound
through the explicit default branch of the type switch; as total functions
they cannot panic on any type name. -/
theorem unknown_type_dispatch_not_found
    (resolve : String → Except Err (LinkRow × String)) (g g2 : Getters)
    (key : String) (link : LinkRow) (tname : String)
    (hlen : key.length = 20)
    (hres : resolve key = .ok (link, tname))
    (hname : tname ∉ (["INVITATION", "APPOINTMENT", "FORM", "CARD"] : List String)) :
    handleLink resolve g key = .notFound
    ∧ publicHandleLink resolve g2 key = .notFound := by
  have h1 : ¬ tname = "INVITATION" := fun hh => hname (by rw [hh]; simp)
  have h2 : ¬ tname = "APPOINTMENT" := fun hh => hname (by rw [hh]; simp)
  have h3 : ¬ tname = "FORM" := fun hh => hname (by rw [hh]; simp)
  have h4 : ¬ tname = "CARD" := fun hh => hname (by rw [hh]; simp)
  constructor
  · simp [handleLink, hlen, hres, h1, h2, h3, h4]
  · simp [publicHandleLink, hlen, hres, h1, h2, h3, h4]

/-- Witness for C8: a length-20 key resolving to type name "BANANA". -/
theorem unknown_type_dispatch_not_found_witness :
    handleLink resolveUnknownType gettersNone "AAAAAAAAAAAAAAAAAAAA" = .notFound
    ∧ publicHandleLink resolveUnknownType gettersNone "AAAAAAAAAAAAAAAAAAAA" = .notFound :=
  unknown_type_dispatch_not_found resolveUnknownType gettersNone gettersNone
    "AAAAAAAAAAAAAAAAAAAA" linkW "BANANA" (by decide) rfl (by decide)

/-! ### Lemmas about the BeforeCreate retry loop -/

theorem bcLoop_exhausts (sources : Nat → RandSrc) (chk : String → Except Unit Nat)
    (l : LinkRow) :
    ∀ fuel i,
      (∀ j, i ≤ j → j < i + fuel →
        ∃ k, generateSecureRandomStringForLink 20 (sources j) = .ok k
          ∧ ∃ c, chk k = .ok c ∧ c ≠ 0) →
      bcLoop sources chk l i fuel = .error .maxAttemptsExceeded := by
  intro fuel
  induction fuel with
  | zero => intro i _; rfl
  | succ fuel ih =>
    intro i hcol
    obtain ⟨k, hk, c, hc, hcne⟩ := hcol i (Nat.le_refl i) (by omega)
    simp only [bcLoop]
    rw [hk]
    dsimp only
    rw [hc]
    dsimp only
    rw [if_neg hcne]
    exact ih (i + 1) (fun j hj1 hj2 => hcol j (by omega) (by omega))

theorem bcLoop_succeeds (sources : Nat → RandSrc) (chk : String → Except Unit Nat)
    (l : LinkRow) (t : Nat) (kt : String)
    (hgen : generateSecureRandomStringForLink 20 (sources t) = .ok kt)
    (hfree : chk kt = .ok 0) :
    ∀ fuel i, i ≤ t → t < i + fuel →
      (∀ j, i ≤ j → j < t →
        ∃ k, generateSecureRandomStringForLink 20 (sources j) = .ok k
          ∧ ∃ c, chk k = .ok c ∧ c ≠ 0) →
      bcLoop sources chk l i fuel = .ok { l with key := kt } := by
  intro fuel
  induction fuel with
  | zero => intro i h1 h2 _; omega
  | succ fuel ih =>
    intro i h1 h2 hcol
    rcases Nat.eq_or_lt_of_le h1 with heq | hlt
    · subst heq
      simp only [bcLoop]
      rw [hgen]
      dsimp only
      rw [hfree]
      dsimp only
      rw [if_pos rfl]
    · obtain ⟨k, hk, c, hc, hcne⟩ := hcol i (Nat.le_refl i) hlt
      simp only [bcLoop]
      rw [hk]
      dsimp only
      rw [hc]
      dsimp only
      rw [if_neg hcne]
      exact ih (i + 1) hlt (by omega) (fun j hj1 hj2 => hcol j (by omega) hj2)

/-- C3: a Link created with an empty Key runs the bounded
generate/check/insert loop of BeforeCreate with maxAttempts = 10.  If every
attempt's candidate is reported present, the hook fails with the
key-exhaustion error — and LinkRepository.Create then returns the store
untouched, so no Link row is inserted.  If instead attempt t (all earlier
attempts colliding) yields a candidate reported absent, the hook succeeds
and the Link carries exactly that t-th candidate. -/
theorem issuance_exhaustion_and_success (sources : Nat → RandSrc)
    (chk : String → Except Unit Nat) (st : Store) (l : LinkRow)
    (t : Nat) (kt : String) (hkey : l.key = "") :
    ((∀ j, j < maxAttempts →
        ∃ k, generateSecureRandomStringForLink 20 (sources j) = .ok k
          ∧ ∃ c, chk k = .ok c ∧ c ≠ 0) →
      beforeCreate sources chk l = .error .maxAttemptsExceeded)
    ∧ ((∀ j, j < maxAttempts →
        ∃ k, generateSecureRandomStringForLink 20 (sources j) = .ok k
          ∧ keyCount st k ≠ 0) →
      linkRepoCreate sources .success st l = (st, .error (.hook .maxAttemptsExceeded)))
    ∧ (t < maxAttempts →
       generateSecureRandomStringForLink 20 (sources t) = .ok kt →
       chk kt = .ok 0 →
       (∀ j, j < t →
        ∃ k, generateSecureRandomStringForLink 20 (sources j) = .ok k
          ∧ ∃ c, chk k = .ok c ∧ c ≠ 0) →
       beforeCreate sources chk l = .ok { l with key := kt }) := by
  have hpass : ¬ l.key ≠ "" := fun hne => hne hkey
  refine ⟨?_, ?_, ?_⟩
  · intro hcol
    unfold beforeCreate
    rw [if_neg hpass]
    exact bcLoop_exhausts sources chk l maxAttempts 0
      (fun j hj1 hj2 => hcol j (by omega))
  · intro hcol
    have hbc : beforeCreate sources (fun k => .ok (keyCount st k)) l =
        .error .maxAttemptsExceeded := by
      unfold beforeCreate
      rw [if_neg hpass]
      refine bcLoop_exhausts sources _ l maxAttempts 0 (fun j hj1 hj2 => ?_)
      obtain ⟨k, hk, hcnt⟩ := hcol j (by omega)
      exact ⟨k, hk, keyCount st k, rfl, hcnt⟩
    unfold linkRepoCreate
    rw [hbc]
  · intro ht hgen hfree hcol
    unfold beforeCreate
    rw [if_neg hpass]
    exact bcLoop_succeeds sources chk l t kt hgen hfree maxAttempts 0
      (Nat.zero_le t) (by omega) (fun j hj1 hj2 => hcol j hj2)

/-- A blank link as LinkService.CreateLink builds it (empty key, zero
target). -/
def linkBlank : LinkRow :=
  { id := 0, key := "", typeId := 1, targetId := 0, creatorUserId := 7,
    deleted := false }

/-- A store already holding a live link with the key the all-zero source
generates, so every attempt collides. -/
def stCollide : Store :=
  { stW with links := [{ id := 1, key := "aaaaaaaaaaaaaaaaaaaa", typeId := 1,
                         targetId := 1, creatorUserId := 7, deleted := false }],
             nextLinkId := 2 }

/-- Witness for C3: with the all-zero source, a check that always reports a
collision exhausts the 10 attempts (and Create leaves the store untouched),
while a check that reports the very first candidate absent succeeds with
that candidate. -/
theorem issuance_exhaustion_and_success_witness :
    beforeCreate sourcesZero (fun _ => .ok 1) linkBlank = .error .maxAttemptsExceeded
    ∧ linkRepoCreate sourcesZero .success stCollide linkBlank =
        (stCollide, .error (.hook .maxAttemptsExceeded))
    ∧ beforeCreate sourcesZero (fun _ => .ok 0) linkBlank =
        .ok { linkBlank with key := "aaaaaaaaaaaaaaaaaaaa" } :=
  ⟨(issuance_exhaustion_and_success sourcesZero (fun _ => .ok 1) stW linkBlank 0
      "aaaaaaaaaaaaaaaaaaaa" rfl).1
      (fun j _ => ⟨"aaaaaaaaaaaaaaaaaaaa", rfl, 1, rfl, by decide⟩),
   (issuance_exhaustion_and_success sourcesZero (fun _ => .ok 1) stCollide linkBlank 0
      "aaaaaaaaaaaaaaaaaaaa" rfl).2.1
      (fun j _ => ⟨"aaaaaaaaaaaaaaaaaaaa", rfl, by decide⟩),
   (issuance_exhaustion_and_success sourcesZero (fun _ => .ok 0) stW linkBlank 0
      "aaaaaaaaaaaaaaaaaaaa" rfl).2.2 (by decide) rfl rfl
      (fun j hj => absurd hj (Nat.not_lt_zero j))⟩

/-! ### Lemmas about the card service's own key loop -/

theorem cardKeyLoop_ok_cases (gen : Nat → Except Unit String) (st : Store) :
    ∀ fuel i k, cardKeyLoop gen st i fuel = .ok k →
      ∃ j, i ≤ j ∧ j < i + fuel ∧ gen j = .ok k ∧ keyCount st k = 0 := by
  intro fuel
  induction fuel with
  | zero => intro i k h; cases h
  | succ fuel ih =>
    intro i k h
    simp only [cardKeyLoop] at h
    cases hg : gen i with
    | error e => rw [hg] at h; cases h
    | ok k2 =>
      rw [hg] at h
      dsimp only at h
      by_cases hc : keyCount st k2 = 0
      · rw [if_pos hc] at h
        cases h
        exact ⟨i, Nat.le_refl i, by omega, hg, hc⟩
      · rw [if_neg hc] at h
        obtain ⟨j, hj1, hj2, hj3, hj4⟩ := ih (i + 1) k h
        exact ⟨j, by omega, by omega, hj3, hj4⟩

theorem cardKeyLoop_exhausts (gen : Nat → Except Unit String) (st : Store) :
    ∀ fuel i,
      (∀ j, i ≤ j → j < i + fuel → ∀ k, gen j = .ok k → keyCount st k ≠ 0) →
      cardKeyLoop gen st i fuel = .error () := by
  intro fuel
  induction fuel with
  | zero => intro i _; rfl
  | succ fuel ih =>
    intro i hcol
    simp only [cardKeyLoop]
    cases hg : gen i with
    | error e => rfl
    | ok k =>
      dsimp only
      rw [if_neg (hcol i (Nat.le_refl i) (by omega) k hg)]
      exact ih (i + 1) (fun j hj1 hj2 => hcol j (by omega) (by omega))

/-- C9: a Link whose Key is already non-empty passes through BeforeCreate
untouched — the hook consults neither the generator nor the uniqueness
check, as the result is the same for every oracle — and
LinkRepository.Create persists exactly the caller-supplied key.  The card
service is that caller: its own loop (bound 5) only ever yields a key that
some attempt generated and that the transaction's count reported absent,
and it fails once all five attempts collide. -/
theorem manual_key_passthrough (sources : Nat → RandSrc)
    (chk : String → Except Unit Nat) (gen : Nat → Except Unit String)
    (st : Store) (l : LinkRow) (h : l.key ≠ "") :
    beforeCreate sources chk l = .ok l
    ∧ linkRepoCreate sources .success st l =
        ({ st with links := st.links ++ [{ l with id := st.nextLinkId }],
                   nextLinkId := st.nextLinkId + 1 },
         .ok { l with id := st.nextLinkId })
    ∧ (∀ k, cardKeyLoop gen st 0 cardMaxKeyAttempts = .ok k →
        ∃ j, j < cardMaxKeyAttempts ∧ gen j = .ok k ∧ keyCount st k = 0)
    ∧ ((∀ j, j < cardMaxKeyAttempts → ∀ k, gen j = .ok k → keyCount st k ≠ 0) →
        cardKeyLoop gen st 0 cardMaxKeyAttempts = .error ()) := by
  have hbc : beforeCreate sources chk l = .ok l := by
    unfold beforeCreate
    rw [if_pos h]
  have hbc2 : beforeCreate sources (fun k => .ok (keyCount st k)) l = .ok l := by
    unfold beforeCreate
    rw [if_pos h]
  refine ⟨hbc, ?_, ?_, ?_⟩
  · unfold linkRepoCreate
    rw [hbc2]
  · intro k hk
    obtain ⟨j, hj1, hj2, hj3, hj4⟩ := cardKeyLoop_ok_cases gen st cardMaxKeyAttempts 0 k hk
    exact ⟨j, by omega, hj3, hj4⟩
  · intro hcol
    exact cardKeyLoop_exhausts gen st cardMaxKeyAttempts 0
      (fun j hj1 hj2 => hcol j (by omega))

/-- A link with the caller-supplied key the card service produces. -/
def linkManual : LinkRow :=
  { id := 0, key := "KKKKKKKKKKKKKKKKKKKK", typeId := 3, targetId := 0,
    creatorUserId := 7, deleted := false }

/-- A generator oracle always returning the card key. -/
def genManual : Nat → Except Unit String := fun _ => .ok "KKKKKKKKKKKKKKKKKKKK"

/-- Witness for C9: the hook passes the non-empty key through (against
arbitrary failing oracles), Create persists it, and the card loop's first
attempt is accepted on the empty store. -/
theorem manual_key_passthrough_witness :
    beforeCreate (fun _ => srcFail) (fun _ => .error ()) linkManual = .ok linkManual
    ∧ linkRepoCreate (fun _ => srcFail) .success stW linkManual =
        ({ stW with links := stW.links ++ [{ linkManual with id := stW.nextLinkId }],
                    nextLinkId := stW.nextLinkId + 1 },
         .ok { linkManual with id := stW.nextLinkId })
    ∧ (∀ k, cardKeyLoop genManual stW 0 cardMaxKeyAttempts = .ok k →
        ∃ j, j < cardMaxKeyAttempts ∧ genManual j = .ok k ∧ keyCount stW k = 0)
    ∧ ((∀ j, j < cardMaxKeyAttempts → ∀ k, genManual j = .ok k → keyCount stW k ≠ 0) →
        cardKeyLoop genManual stW 0 cardMaxKeyAttempts = .error ()) :=
  manual_key_passthrough (fun _ => srcFail) (fun _ => .error ()) genManual stW
    linkManual (by decide)

/-! ### C5: key immutability under LinkRepository.Update -/

/-- A store holding one live link with a non-empty key. -/
def stKey : Store :=
  { stW with
      links := [{ id := 1, key := "AAAAAAAAAAAAAAAAAAAA", typeId := 1,
                  targetId := 5, creatorUserId := 7, deleted := false }],
      nextLinkId := 2 }

/-- C5 counterexample: an update that sets key to the empty string is an
attempt to change the Key field of the stored link (whose key is
"AAAAAAAAAAAAAAAAAAAA"), yet it succeeds and clears the stored key, because
Statement.Changed("Key") compares the update value against the zero-valued
statement model of `db.Model(&models.Link{})`, not against the stored row. -/
theorem key_update_to_empty_bypasses_hook :
    (linkRepoUpdate stKey 1 { targetId := none, key := some "" } 7).2 = .ok ()
    ∧ (linkRepoUpdate stKey 1 { targetId := none, key := some "" } 7).1.links.map
        LinkRow.key = [""]
    ∧ stKey.links.map LinkRow.key = ["AAAAAAAAAAAAAAAAAAAA"] :=
  ⟨rfl, rfl, rfl⟩

/-- C5 amended: an update whose map sets key to any non-empty value (any
value GORM's Changed detects against the zero model) fails with the
key-immutability error and leaves the store — hence the stored key —
untouched; and an update whose map does not mention key (such as the
target_id backfill) never alters any stored key. -/
theorem key_immutable_for_detected_changes (st : Store) (id : Nat)
    (d : LinkUpdateData) (uid : Nat) (hid : id ≠ 0) :
    (∀ k, d.key = some k → k ≠ "" →
        linkRepoUpdate st id d uid = (st, .error .keyImmutable))
    ∧ (d.key = none →
        (linkRepoUpdate st id d uid).1.links.map LinkRow.key =
          st.links.map LinkRow.key) := by
  constructor
  · intro k hk hkne
    have hne : d.isEmpty = false := by
      simp [LinkUpdateData.isEmpty, hk]
    have hch : changedKey "" d = true := by
      simp [changedKey, hk, hkne]
    unfold linkRepoUpdate
    rw [if_neg hid, if_neg (by simp [hne]), beforeUpdate, if_pos hch]
  · intro hnone
    unfold linkRepoUpdate
    rw [if_neg hid]
    by_cases he : d.isEmpty = true
    · rw [if_pos he]
    · rw [if_neg he]
      have hbu : beforeUpdate "" d = .ok () := by
        simp [beforeUpdate, changedKey, hnone]
      rw [hbu]
      dsimp only
      by_cases hm : (st.links.filter (fun r => r.id = id && !r.deleted)).length = 0
      · rw [if_pos hm, if_pos hm]
      · rw [if_neg hm]
        show (st.links.map
            (fun r => if r.id = id && !r.deleted then applyUpdate d r else r)).map
            LinkRow.key = st.links.map LinkRow.key
        rw [List.map_map]
        refine List.map_congr_left (fun r _ => ?_)
        by_cases hr : (r.id = id && !r.deleted) = true
        · simp only [Function.comp, hr, if_pos]
          unfold applyUpdate
          rw [hnone]
          rfl
        · simp only [Function.comp, hr]
          rw [if_neg (by simp [hr])]

/-- Witness for C5's amended statement: a non-empty key update on stKey is
rejected with the store unchanged, and the target_id backfill map leaves
every key as it was. -/
theorem key_immutable_for_detected_changes_witness :
    linkRepoUpdate stKey 1 { targetId := none, key := some "X" } 7 =
      (stKey, .error .keyImmutable)
    ∧ (linkRepoUpdate stKey 1 { targetId := some 42, key := none } 7).1.links.map
        LinkRow.key = stKey.links.map LinkRow.key :=
  ⟨(key_immutable_for_detected_changes stKey 1
      { targetId := none, key := some "X" } 7 (by decide)).1 "X" rfl (by decide),
   (key_immutable_for_detected_changes stKey 1
      { targetId := some 42, key := none } 7 (by decide)).2 rfl⟩

/-! ### C2: a duplicate-key failure of the Link insert -/

/-- C2 counterexample: on an empty table with working entropy, when the
INSERT is rejected by the unique constraint (the concurrency race the
pre-check cannot see), CreateLink does not re-enter the generate/check/insert
loop: it returns the fatal ErrLinkKeyGenerationFailed with the store
untouched, even though the very same call would succeed on a retry (third
conjunct). -/
theorem duplicate_key_not_retried :
    createLink sourcesZero .duplicateKey stW 7 1 =
      (stW, .error .linkKeyGenerationFailed)
    ∧ (createLink sourcesZero .success stW 7 1).2 =
        .ok { id := 1, key := "aaaaaaaaaaaaaaaaaaaa", typeId := 1, targetId := 0,
              creatorUserId := 7, deleted := false }
    ∧ keyCount stW "aaaaaaaaaaaaaaaaaaaa" = 0 :=
  ⟨rfl, rfl, rfl⟩

/-- C2 amended: when the Link INSERT fails on the storage-layer unique
constraint, CreateLink recognises the duplicate-key error (gorm's sentinel
or the Postgres message) and converts it into the clean service error
ErrLinkKeyGenerationFailed instead of surfacing the raw duplicate-key
failure — but it does not retry: the issuance fails and the store is
unchanged. -/
theorem duplicate_key_mapped_not_retried (sources : Nat → RandSrc) (st : Store)
    (creatorUserId typeId : Nat) (l2 : LinkRow)
    (hc : creatorUserId ≠ 0) (ht : typeId ≠ 0)
    (hhook : beforeCreate sources (fun k => .ok (keyCount st k))
        { id := 0, key := "", typeId := typeId, targetId := 0,
          creatorUserId := creatorUserId, deleted := false } = .ok l2) :
    createLink sources .duplicateKey st creatorUserId typeId =
      (st, .error .linkKeyGenerationFailed) := by
  unfold createLink
  rw [if_neg (by
    rintro (h | h)
    · exact ht h
    · exact hc h)]
  unfold linkRepoCreate
  dsimp only
  rw [hhook]
  rfl

/-- Witness for C2's amended statement on the empty store. -/
theorem duplicate_key_mapped_not_retried_witness :
    createLink sourcesZero .duplicateKey stW 7 1 =
      (stW, .error .linkKeyGenerationFailed) :=
  duplicate_key_mapped_not_retried sourcesZero stW 7 1
    { id := 0, key := "aaaaaaaaaaaaaaaaaaaa", typeId := 1, targetId := 0,
      creatorUserId := 7, deleted := false }
    (by decide) (by decide) rfl

/-! ### C6: public visibility rules of the get-by-key operations -/

/-- C6: each public get-by-key operation returns its resource only when the
resource is enabled and not past its optional expiry instant (appointments:
Detail.ExpiresAt; forms: Detail.ClosesAt; cards carry no expiry field), and
whenever the key resolves all the way to a resource that is disabled or
expired, the operation answers with the service's not-found error instead of
the content. -/
theorem get_by_key_visibility (st : Store) (now : Nat) (key : String) :
    (∀ a, getAppointmentByKey st now key = .ok a →
        a.isEnabled = true ∧ ∀ e, a.expiresAt = some e → ¬ now > e)
    ∧ (∀ c, getCardByKey st key = .ok c → c.isEnabled = true)
    ∧ (∀ f, getFormByKey st now key = .ok f →
        f.isEnabled = true ∧ ∀ t, f.closesAt = some t → ¬ now > t)
    ∧ (∀ link a, getLinkByKeySvc st key = .ok link →
        typeNameOf st link.typeId = "APPOINTMENT" →
        appointmentRepoFindById st link.targetId = .ok a →
        (a.isEnabled = false ∨ ∃ e, a.expiresAt = some e ∧ now > e) →
        getAppointmentByKey st now key = .error .appNotFound)
    ∧ (∀ link c, linkRepoFindByKey st key = .ok link →
        typeNameOf st link.typeId = "CARD" →
        cardRepoGetById st link.targetId = .ok c →
        c.isEnabled = false →
        getCardByKey st key = .error .cardNotFound)
    ∧ (∀ link f, getLinkByKeySvc st key = .ok link →
        typeNameOf st link.typeId = "FORM" →
        formRepoFindById st link.targetId = .ok f →
        (f.isEnabled = false ∨ ∃ t, f.closesAt = some t ∧ now > t) →
        getFormByKey st now key = .error .formNotFound) := by
  have hkeyOfSvc : ∀ link, getLinkByKeySvc st key = .ok link → ¬ key = "" := by
    intro link hl hk
    rw [hk] at hl
    unfold getLinkByKeySvc linkRepoFindByKey at hl
    rw [if_pos rfl] at hl
    exact Except.noConfusion hl
  have hkeyOfRepo : ∀ link, linkRepoFindByKey st key = .ok link → ¬ key = "" := by
    intro link hl hk
    rw [hk] at hl
    unfold linkRepoFindByKey at hl
    rw [if_pos rfl] at hl
    exact Except.noConfusion hl
  refine ⟨?_, ?_, ?_, ?_, ?_, ?_⟩
  · intro a h
    unfold getAppointmentByKey at h
    by_cases hk : key = ""
    · rw [if_pos hk] at h
      exact Except.noConfusion h
    · rw [if_neg hk] at h
      cases hl : getLinkByKeySvc st key with
      | error e =>
        rw [hl] at h
        exact Except.noConfusion h
      | ok link =>
        rw [hl] at h
        dsimp only at h
        by_cases ht : typeNameOf st link.typeId ≠ "APPOINTMENT"
        · rw [if_pos ht] at h
          exact Except.noConfusion h
        · rw [if_neg ht] at h
          cases ha : appointmentRepoFindById st link.targetId with
          | error e =>
            rw [ha] at h
            exact Except.noConfusion h
          | ok a2 =>
            rw [ha] at h
            dsimp only at h
            by_cases hen : (!a2.isEnabled) = true
            · rw [if_pos hen] at h
              exact Except.noConfusion h
            · rw [if_neg hen] at h
              have hena : a2.isEnabled = true := by
                cases hval : a2.isEnabled
                · rw [hval] at hen; exact absurd rfl hen
                · rfl
              cases hexp : a2.expiresAt with
              | none =>
                rw [hexp] at h
                cases h
                exact ⟨hena, fun e he => by rw [hexp] at he; exact Option.noConfusion he⟩
              | some e2 =>
                rw [hexp] at h
                dsimp only at h
                by_cases hgt : now > e2
                · rw [if_pos hgt] at h
                  exact Except.noConfusion h
                · rw [if_neg hgt] at h
                  cases h
                  refine ⟨hena, fun e3 he3 => ?_⟩
                  rw [hexp] at he3
                  cases he3
                  exact hgt
  · intro c h
    unfold getCardByKey at h
    by_cases hk : key = ""
    · rw [if_pos hk] at h
      exact Except.noConfusion h
    · rw [if_neg hk] at h
      cases hl : linkRepoFindByKey st key with
      | error e =>
        rw [hl] at h
        exact Except.noConfusion h
      | ok link =>
        rw [hl] at h
        dsimp only at h
        by_cases ht : typeNameOf st link.typeId ≠ "CARD"
        · rw [if_pos ht] at h
          exact Except.noConfusion h
        · rw [if_neg ht] at h
          cases hc : cardRepoGetById st link.targetId with
          | error e =>
            rw [hc] at h
            exact Except.noConfusion h
          | ok c2 =>
            rw [hc] at h
            dsimp only at h
            by_cases hen : (!c2.isEnabled) = true
            · rw [if_pos hen] at h
              exact Except.noConfusion h
            · rw [if_neg hen] at h
              have hena : c2.isEnabled = true := by
                cases hval : c2.isEnabled
                · rw [hval] at hen; exact absurd rfl hen
                · rfl
              cases h
              exact hena
  · intro f h
    unfold getFormByKey at h
    by_cases hk : key = ""
    · rw [if_pos hk] at h
      exact Except.noConfusion h
    · rw [if_neg hk] at h
      cases hl : getLinkByKeySvc st key with
      | error e =>
        rw [hl] at h
        exact Except.noConfusion h
      | ok link =>
        rw [hl] at h
        dsimp only at h
        by_cases ht : typeNameOf st link.typeId ≠ "FORM"
        · rw [if_pos ht] at h
          exact Except.noConfusion h
        · rw [if_neg ht] at h
          cases hf : formRepoFindById st link.targetId with
          | error e =>
            rw [hf] at h
            exact Except.noConfusion h
          | ok f2 =>
            rw [hf] at h
            dsimp only at h
            by_cases hen : (!f2.isEnabled) = true
            · rw [if_pos hen] at h
              exact Except.noConfusion h
            · rw [if_neg hen] at h
              have hena : f2.isEnabled = true := by
                cases hval : f2.isEnabled
                · rw [hval] at hen; exact absurd rfl hen
                · rfl
              cases hcl : f2.closesAt with
              | none =>
                rw [hcl] at h
                cases h
                exact ⟨hena, fun t htc => by rw [hcl] at htc; exact Option.noConfusion htc⟩
              | some t2 =>
                rw [hcl] at h
                dsimp only at h
                by_cases hgt : now > t2
                · rw [if_pos hgt] at h
                  exact Except.noConfusion h
                · rw [if_neg hgt] at h
                  cases h
                  refine ⟨hena, fun t3 ht3 => ?_⟩
                  rw [hcl] at ht3
                  cases ht3
                  exact hgt
  · intro link a hl ht ha hbad
    unfold getAppointmentByKey
    rw [if_neg (hkeyOfSvc link hl), hl]
    dsimp only
    rw [if_neg (fun hne => hne ht), ha]
    dsimp only
    rcases hbad with henf | ⟨e, hee, hgt⟩
    · rw [if_pos (by rw [henf]; rfl)]
    · by_cases hen : (!a.isEnabled) = true
      · rw [if_pos hen]
      · rw [if_neg hen, hee]
        dsimp only
        rw [if_pos hgt]
  · intro link c hl ht hc henf
    unfold getCardByKey
    rw [if_neg (hkeyOfRepo link hl), hl]
    dsimp only
    rw [if_neg (fun hne => hne ht), hc]
    dsimp only
    rw [if_pos (by rw [henf]; rfl)]
  · intro link f hl ht hf hbad
    unfold getFormByKey
    rw [if_neg (hkeyOfSvc link hl), hl]
    dsimp only
    rw [if_neg (fun hne => hne ht), hf]
    dsimp only
    rcases hbad with henf | ⟨t, htt, hgt⟩
    · rw [if_pos (by rw [henf]; rfl)]
    · by_cases hen : (!f.isEnabled) = true
      · rw [if_pos hen]
      · rw [if_neg hen, htt]
        dsimp only
        rw [if_pos hgt]

/-- A store populated with one appointment, one card and one form, each
enabled, plus their links, used to witness C6 non-vacuously. -/
def stPub : Store :=
  { types := [⟨1, "APPOINTMENT"⟩, ⟨2, "FORM"⟩, ⟨3, "CARD"⟩, ⟨4, "INVITATION"⟩],
    links :=
      [{ id := 1, key := "AAAAAAAAAAAAAAAAAAAA", typeId := 1, targetId := 1,
         creatorUserId := 7, deleted := false },
       { id := 2, key := "CCCCCCCCCCCCCCCCCCCC", typeId := 3, targetId := 1,
         creatorUserId := 7, deleted := false },
       { id := 3, key := "FFFFFFFFFFFFFFFFFFFF", typeId := 2, targetId := 1,
         creatorUserId := 7, deleted := false }],
    appointments :=
      [{ id := 1, linkId := 1, providerUserId := 7, isEnabled := true,
         expiresAt := some 100, deleted := false }],
    cards :=
      [{ id := 1, linkId := 2, creatorUserId := 7, isEnabled := false,
         deleted := false }],
    forms :=
      [{ id := 1, linkId := 3, creatorUserId := 7, isEnabled := true,
         closesAt := some 10, deleted := false }],
    nextLinkId := 4, nextResId := 2 }

/-- Witness for C6 at time 50 on stPub: the enabled unexpired appointment is
served (and the theorem yields its guarantees), the disabled card is hidden,
and the form past ClosesAt = 10 is hidden. -/
theorem get_by_key_visibility_witness :
    (getAppointmentByKey stPub 50 "AAAAAAAAAAAAAAAAAAAA" =
      .ok { id := 1, linkId := 1, providerUserId := 7, isEnabled := true,
            expiresAt := some 100, deleted := false })
    ∧ ({ id := 1, linkId := 1, providerUserId := 7, isEnabled := true,
         expiresAt := some 100, deleted := false } : AppointmentRow).isEnabled = true
    ∧ getCardByKey stPub "CCCCCCCCCCCCCCCCCCCC" = .error .cardNotFound
    ∧ getFormByKey stPub 50 "FFFFFFFFFFFFFFFFFFFF" = .error .formNotFound :=
  ⟨rfl,
   ((get_by_key_visibility stPub 50 "AAAAAAAAAAAAAAAAAAAA").1 _ rfl).1,
   (get_by_key_visibility stPub 50 "CCCCCCCCCCCCCCCCCCCC").2.2.2.2.1
     { id := 2, key := "CCCCCCCCCCCCCCCCCCCC", typeId := 3, targetId := 1,
       creatorUserId := 7, deleted := false }
     { id := 1, linkId := 2, creatorUserId := 7, isEnabled := false,
       deleted := false } rfl rfl rfl rfl,
   (get_by_key_visibility stPub 50 "FFFFFFFFFFFFFFFFFFFF").2.2.2.2.2
     { id := 3, key := "FFFFFFFFFFFFFFFFFFFF", typeId := 2, targetId := 1,
       creatorUserId := 7, deleted := false }
     { id := 1, linkId := 3, creatorUserId := 7, isEnabled := true,
       closesAt := some 10, deleted := false } rfl rfl rfl
     (Or.inr ⟨10, rfl, by omega⟩)⟩

/-! ### C1: transactionality of the link insert and target backfill -/

/-- A valid appointment detail. -/
def apptDetailOk : AppointmentDetail :=
  { name := "A", durationMinutes := 30, bookingLeadTime := 0,
    bookingHorizonDays := 30, bufferTimeBefore := 0, bufferTimeAfter := 0,
    expiresAt := none }

/-- A valid form detail. -/
def formDetailOk : FormDetail :=
  { title := "F", submissionLimit := none, limitPerUser := none, closesAt := none }

/-- A valid card detail. -/
def cardDetailOk : CardDetail := { firstName := "A", lastName := "B" }

/-- C1 evaluated at the failing input: starting from an empty store, when
the resource-row insert inside the transaction fails, CreateAppointment and
CreateForm leave the freshly issued Link row visible in the committed store
(their link operations run through LinkService on the base connection, since
the context passed to LinkRepository.getDB never carries a "tx" value),
while CreateCard — whose link operations go through the tx-bound
repositories — rolls back to exactly the initial store.  The spec and the
code's own comments promise the CreateCard behaviour for all three. -/
theorem link_insert_survives_resource_rollback :
    (createAppointment sourcesZero true stW 7 apptDetailOk).2 =
      .error .appCreationFailed
    ∧ (createAppointment sourcesZero true stW 7 apptDetailOk).1.links.map
        LinkRow.key = ["aaaaaaaaaaaaaaaaaaaa"]
    ∧ (createAppointment sourcesZero true stW 7 apptDetailOk).1.appointments = []
    ∧ stW.links = []
    ∧ (createForm sourcesZero true stW 7 formDetailOk).2 = .error .formCreationFailed
    ∧ (createForm sourcesZero true stW 7 formDetailOk).1.links.map
        LinkRow.key = ["aaaaaaaaaaaaaaaaaaaa"]
    ∧ createCard sourcesZero genManual true stW 7 cardDetailOk =
        (stW, .error .cardCreationFailed) :=
  ⟨rfl, rfl, rfl, rfl, rfl, rfl, rfl⟩

end DavetLink
